import Mathlib

/-!
# phoenix-docs: the sidebar configuration `sidebars.js`

`sidebars.js` holds one object literal, bound to `const sidebars`, and the
statement `module.exports = sidebars`.  This file embeds

* the JavaScript values the literal is built from (`JSValue`),
* the literal itself, property by property and in source order (`sidebars`),
* the two statements of the module (`program`, `module_exports`),
* the data model of the sidebar tree (`Node`, `SidebarTree`) together with
  the decoder that reads a `JSValue` as such a tree,

and proves the structural properties of the exported tree.
-/

namespace Sidebars

/-! ## JavaScript values -/

/-- The values that occur in `sidebars.js`: string literals, array literals
and object literals.  An object literal is kept as the list of its property
definitions, in the order in which the source writes them. -/
inductive JSValue where
  | str : String → JSValue
  | arr : List JSValue → JSValue
  | obj : List (String × JSValue) → JSValue

namespace JSValue

/-- The property definitions of an object literal, as written (no properties
for a value that is not an object). -/
def props : JSValue → List (String × JSValue)
  | .obj ps => ps
  | _ => []

/-- The property names of an object literal, as written, repetitions kept. -/
def writtenKeys (v : JSValue) : List String :=
  v.props.map Prod.fst

/-- The own property names of the object an object literal evaluates to: a
name that is written twice is one property, at the position of its first
definition. -/
def ownKeys (v : JSValue) : List String :=
  v.writtenKeys.eraseDups

/-- Value bound to `k` by a list of property definitions: a later definition
of the same name overwrites an earlier one. -/
def lookupLast (k : String) : List (String × JSValue) → Option JSValue
  | [] => none
  | (k', v) :: rest =>
    match lookupLast k rest with
    | some w => some w
    | none => if k' = k then some v else none

/-- Property access `v[k]` on the object an object literal evaluates to. -/
def get (v : JSValue) (k : String) : Option JSValue :=
  lookupLast k v.props

end JSValue

/-! ## The literal of `sidebars.js` -/

open JSValue in
/-- The object literal bound to `const sidebars` (lines 15 to 253). -/
def sidebars : JSValue :=
  obj [
    ("gettingStarted", arr [
      obj [
        ("type", str "category"),
        ("label", str "Getting Started"),
        ("items", arr [
          str "getting-started/overview",
          str "getting-started/installation",
          str "getting-started/quickstart"
        ])
      ]
    ]),

    ("userGuides", arr [
      obj [
        ("type", str "category"),
        ("label", str "User Guides"),
        ("items", arr [
          str "user-guides/node",
          str "user-guides/wallet-mobile",
          str "user-guides/wallet-extension",
          str "user-guides/explorer",
          str "user-guides/mining"
        ])
      ]
    ]),

    ("developers", arr [
      obj [
        ("type", str "category"),
        ("label", str "Developer Documentation"),
        ("items", arr [
          str "developers/sdk-js",
          str "developers/sdk-python",
          str "developers/sdk-go",
          str "developers/smart-contracts",
          str "developers/devtools"
        ])
      ]
    ]),

    ("apiReference", arr [
      obj [
        ("type", str "category"),
        ("label", str "API Reference"),
        ("items", arr [
          str "api-reference/rpc",
          str "api-reference/sdk-js",
          str "api-reference/sdk-python",
          str "api-reference/sdk-go",
          str "api-reference/explorer-api"
        ])
      ]
    ]),

    ("architecture", arr [
      obj [
        ("type", str "category"),
        ("label", str "Architecture"),
        ("items", arr [
          str "architecture/overview",
          str "architecture/node",
          str "architecture/consensus",
          str "architecture/evm-integration",
          str "architecture/smart-contracts",
          str "architecture/network"
        ])
      ]
    ]),

    ("operators", arr [
      obj [
        ("type", str "category"),
        ("label", str "Operator Guides"),
        ("items", arr [
          str "operators/node-setup",
          str "operators/monitoring",
          str "operators/troubleshooting",
          str "operators/infrastructure"
        ])
      ]
    ]),

    ("tutorials", arr [
      obj [
        ("type", str "category"),
        ("label", str "Tutorials"),
        ("items", arr [
          str "tutorials/first-dapp",
          str "tutorials/deploy-contract",
          str "tutorials/setup-pool",
          str "tutorials/integrate-sdk"
        ])
      ]
    ]),

    ("reference", arr [
      obj [
        ("type", str "category"),
        ("label", str "Reference"),
        ("items", arr [
          obj [
            ("type", str "category"),
            ("label", str "Network Parameters"),
            ("items", arr [
              str "reference/network-parameters",
              str "reference/chain-ids",
              str "reference/eip-conformance"
            ])
          ],
          obj [
            ("type", str "category"),
            ("label", str "Technical Specifications"),
            ("items", arr [
              obj [
                ("type", str "category"),
                ("label", str "Core Node"),
                ("items", arr [
                  str "reference/specs/core-node/CONSENSUS",
                  str "reference/specs/core-node/CANONICALIZATION",
                  str "reference/specs/core-node/CANONICALIZATION_DETAILED",
                  str "reference/specs/core-node/CANONICALIZATION_ENHANCED",
                  str "reference/specs/core-node/BLOCK_HEADER",
                  str "reference/specs/core-node/REORG_HANDLING",
                  str "reference/specs/core-node/IMPLEMENTATION_GUIDE"
                ])
              ],
              obj [
                ("type", str "category"),
                ("label", str "EVM"),
                ("items", arr [
                  str "reference/specs/evm/EXECUTION",
                  str "reference/specs/evm/RPC",
                  str "reference/specs/evm/EVM_CONTEXT_MAPPING",
                  str "reference/specs/evm/EVM_INTEGRATION_DETAILED"
                ])
              ],
              obj [
                ("type", str "category"),
                ("label", str "DAG-EVM"),
                ("items", arr [
                  str "reference/specs/dag-evm/DAG_EVM_MASTER_SPECIFICATION",
                  str "reference/specs/dag-evm/EXECUTIVE_SUMMARY_AND_RECOMMENDATIONS",
                  str "reference/specs/dag-evm/EDGE_CASES_AND_ERROR_HANDLING",
                  str "reference/specs/dag-evm/TEST_SCENARIOS_AND_VALIDATION",
                  str "reference/specs/dag-evm/README"
                ])
              ],
              obj [
                ("type", str "category"),
                ("label", str "Mining"),
                ("items", arr [
                  str "reference/specs/mining/ALGORITHMS",
                  str "reference/specs/mining/POOL_PROTOCOL"
                ])
              ],
              obj [
                ("type", str "category"),
                ("label", str "SDKs"),
                ("items", arr [
                  str "reference/specs/sdk/JS_TS",
                  str "reference/specs/sdk/PYTHON",
                  str "reference/specs/sdk/GO"
                ])
              ],
              obj [
                ("type", str "category"),
                ("label", str "Developer Tools"),
                ("items", arr [
                  str "reference/specs/devtools/HARDHAT",
                  str "reference/specs/devtools/FOUNDRY",
                  str "reference/specs/devtools/REMIX",
                  str "reference/specs/devtools/DEPLOY_PLAYBOOK",
                  str "reference/specs/devtools/POLICY_GATE"
                ])
              ],
              obj [
                ("type", str "category"),
                ("label", str "Wallets"),
                ("items", arr [
                  str "reference/specs/wallet/MOBILE",
                  str "reference/specs/wallet/EXTENSION"
                ])
              ],
              obj [
                ("type", str "category"),
                ("label", str "Explorer"),
                ("items", arr [
                  str "reference/specs/explorer/BLOCKSCOUT"
                ])
              ],
              obj [
                ("type", str "category"),
                ("label", str "Infrastructure"),
                ("items", arr [
                  str "reference/specs/rpc/GATEWAY",
                  str "reference/specs/ops/SEED_NODES",
                  str "reference/specs/ops/MONITORING",
                  str "reference/specs/pool/POOL_SOFTWARE"
                ])
              ],
              obj [
                ("type", str "category"),
                ("label", str "Security"),
                ("items", arr [
                  str "reference/specs/security/EIP_CONFORMANCE",
                  str "reference/specs/security/STATIC_RULESET"
                ])
              ],
              obj [
                ("type", str "category"),
                ("label", str "Testing"),
                ("items", arr [
                  str "reference/specs/testing/DAG_TEST_SCENARIOS",
                  str "reference/specs/testing/CONTRACT_TEST_SUITE",
                  str "reference/specs/testing/DAG_COMPREHENSIVE_TESTS",
                  str "reference/specs/testing/REORG_HARNESS_SPEC"
                ])
              ],
              obj [
                ("type", str "category"),
                ("label", str "Other"),
                ("items", arr [
                  str "reference/specs/contracts/TEMPLATES_SPEC",
                  str "reference/specs/bridges/LAYERZERO",
                  str "reference/specs/oracles/REDSTONE",
                  str "reference/specs/indexing/THE_GRAPH",
                  str "reference/specs/developers/DEVELOPER_TEST_GUIDE",
                  str "reference/specs/developers/DEVELOPER_REQUIREMENTS_ANALYSIS",
                  str "reference/specs/developers/CONTRACT_COMPLEXITY_ANALYSIS",
                  str "reference/specs/SPECS_INDEX"
                ])
              ]
            ])
          ]
        ])
      ]
    ])
  ]

/-! ## The module: `const sidebars = ...; module.exports = sidebars;` -/

/-- The two kinds of statement in `sidebars.js`. -/
inductive Stmt where
  /-- The declaration `const name = value;`. -/
  | constDecl (name : String) (value : JSValue)
  /-- The assignment `module.exports = name;`. -/
  | assignExports (name : String)

/-- State of the module while its statements run: the `const` bindings made
so far and the current value of `module.exports`. -/
structure ModuleState where
  bindings : List (String × JSValue)
  exports : JSValue

/-- State in which a CommonJS module starts: nothing bound, `module.exports`
an empty object. -/
def ModuleState.init : ModuleState :=
  { bindings := [], exports := .obj [] }

/-- Value of the identifier `name`, if it is bound. -/
def ModuleState.resolve (st : ModuleState) (name : String) : Option JSValue :=
  (st.bindings.find? (fun b => b.1 == name)).map Prod.snd

/-- One statement.  Declaring a name that is already bound and reading a
name that is not bound are errors (`none`). -/
def Stmt.exec (st : ModuleState) : Stmt → Option ModuleState
  | .constDecl name value =>
    match st.resolve name with
    | some _ => none
    | none => some { st with bindings := (name, value) :: st.bindings }
  | .assignExports name =>
    match st.resolve name with
    | some v => some { st with exports := v }
    | none => none

/-- The statements in order, from the state `st`. -/
def runStmts (st : ModuleState) : List Stmt → Option ModuleState
  | [] => some st
  | s :: rest =>
    match s.exec st with
    | some st' => runStmts st' rest
    | none => none

/-- The statements of `sidebars.js`, lines 15 and 255. -/
def program : List Stmt :=
  [.constDecl "sidebars" sidebars, .assignExports "sidebars"]

/-- What the module exports: `module.exports` after the statements ran. -/
def module_exports : Option JSValue :=
  (runStmts ModuleState.init program).map ModuleState.exports

/-! ## The data model of the sidebar tree -/

/-- A node of a sidebar: a document identifier, or a category with a label
and an ordered sequence of nodes. -/
inductive Node where
  | doc : String → Node
  | category : String → List Node → Node

/-- A category node, taken apart. -/
structure Category where
  label : String
  items : List Node

/-- The sidebar tree: sidebar names with their ordered sequences of nodes, in
the order of the object literal. -/
abbrev SidebarTree := List (String × List Node)

mutual
/-- Reads a value as a node.  A string is a document identifier.  An object
is a category when it is written as
`{ type: 'category', label: <string>, items: [ <nodes> ] }`, the three
properties and no other; every other value is rejected. -/
def Node.ofJS : JSValue → Option Node
  | .str s => some (.doc s)
  | .arr _ => none
  | .obj [("type", .str ty), ("label", .str l), ("items", .arr xs)] =>
    if ty = "category" then
      match Node.listOfJS xs with
      | some ns => some (.category l ns)
      | none => none
    else none
  | .obj _ => none
/-- Reads the elements of an array as nodes; fails when one of them fails. -/
def Node.listOfJS : List JSValue → Option (List Node)
  | [] => some []
  | x :: xs =>
    match Node.ofJS x, Node.listOfJS xs with
    | some n, some ns => some (n :: ns)
    | _, _ => none
end

/-- Reads property definitions as sidebars: every value has to be an array of
nodes. -/
def SidebarTree.ofProps : List (String × JSValue) → Option SidebarTree
  | [] => some []
  | (name, .arr xs) :: rest =>
    match Node.listOfJS xs, SidebarTree.ofProps rest with
    | some ns, some t => some ((name, ns) :: t)
    | _, _ => none
  | _ :: _ => none

/-- Reads a value as a sidebar tree: an object whose property values are
arrays of nodes. -/
def SidebarTree.ofJS : JSValue → Option SidebarTree
  | .obj ps => SidebarTree.ofProps ps
  | _ => none

/-! ## Observations on the tree -/

/-- Whether a node is a document identifier. -/
def Node.isDoc : Node → Bool
  | .doc _ => true
  | .category _ _ => false

/-- Whether a node is a category. -/
def Node.isCategory : Node → Bool
  | .doc _ => false
  | .category _ _ => true

mutual
/-- Document identifiers below a node, depth first, in order. -/
def Node.leaves : Node → List String
  | .doc s => [s]
  | .category _ items => Node.leavesOfList items
/-- Document identifiers below a sequence of nodes, depth first, in order. -/
def Node.leavesOfList : List Node → List String
  | [] => []
  | n :: ns => n.leaves ++ Node.leavesOfList ns
end

mutual
/-- Category nodes at and below a node, a parent before its children. -/
def Node.categories : Node → List Category
  | .doc _ => []
  | .category l items => ⟨l, items⟩ :: Node.categoriesOfList items
/-- Category nodes at and below a sequence of nodes. -/
def Node.categoriesOfList : List Node → List Category
  | [] => []
  | n :: ns => n.categories ++ Node.categoriesOfList ns
end

mutual
/-- Category nesting depth of a node: 0 for a document identifier, one more
than the deepest item for a category. -/
def Node.depth : Node → Nat
  | .doc _ => 0
  | .category _ items => Node.depthOfList items + 1
/-- Largest category nesting depth in a sequence of nodes (0 when empty). -/
def Node.depthOfList : List Node → Nat
  | [] => 0
  | n :: ns => max n.depth (Node.depthOfList ns)
end

/-- All document identifiers of the tree: sidebar after sidebar, each one
depth first. -/
def SidebarTree.leaves (t : SidebarTree) : List String :=
  t.flatMap (fun sb => Node.leavesOfList sb.2)

/-- All category nodes of the tree, at every depth. -/
def SidebarTree.categories (t : SidebarTree) : List Category :=
  t.flatMap (fun sb => Node.categoriesOfList sb.2)

/-- The sidebar names of the tree, in order. -/
def SidebarTree.names (t : SidebarTree) : List String :=
  t.map Prod.fst

/-- Whether `s` starts with `pre`, character by character. -/
def startsWith (s pre : String) : Bool :=
  pre.data.isPrefixOf s.data

/-- The directory of each sidebar: the prefix its document identifiers are
expected to start with. -/
def sidebarDirs : List (String × String) :=
  [("gettingStarted", "getting-started/"),
   ("userGuides", "user-guides/"),
   ("developers", "developers/"),
   ("apiReference", "api-reference/"),
   ("architecture", "architecture/"),
   ("operators", "operators/"),
   ("tutorials", "tutorials/"),
   ("reference", "reference/")]

/-- The decoded tree of `sidebars` (the empty tree if decoding failed;
`sidebars_decodes` shows it does not). -/
def sidebarsTree : SidebarTree :=
  (SidebarTree.ofJS sidebars).getD []

/-- The spec's Node, as a predicate on values: a plain document-identifier
string, or a Category object `{ type: "category", label: string, items:
ordered sequence of Node }`. -/
inductive IsNode : JSValue → Prop where
  | doc (s : String) : IsNode (.str s)
  | category (l : String) (xs : List JSValue) (h : ∀ x ∈ xs, IsNode x) :
      IsNode (.obj [("type", .str "category"), ("label", .str l), ("items", .arr xs)])

/-! ## Auxiliary facts -/

/-- Decoding the literal succeeds, with `sidebarsTree` as its result. -/
theorem sidebars_decodes : SidebarTree.ofJS sidebars = some sidebarsTree := by
  rfl

mutual
theorem Node.ofJS_isNode : ∀ (v : JSValue) (n : Node), Node.ofJS v = some n → IsNode v
  | .str s, _, _ => IsNode.doc s
  | .arr _, _, h => by simp [Node.ofJS] at h
  | .obj ps, n, h => by
    unfold Node.ofJS at h
    split at h
    · rename_i heq
      cases heq
    · rename_i heq
      cases heq
    · rename_i ty l xs heq
      cases heq
      split at h
      · rename_i hty
        subst hty
        split at h
        · rename_i ns hns
          exact IsNode.category l xs (Node.listOfJS_isNode xs ns hns)
        · simp at h
      · simp at h
    · simp at h
theorem Node.listOfJS_isNode : ∀ (xs : List JSValue) (ns : List Node),
    Node.listOfJS xs = some ns → ∀ x ∈ xs, IsNode x
  | [], _, _ => by simp
  | x :: xs, ns, h => by
    unfold Node.listOfJS at h
    split at h
    · rename_i n ns' hn hns
      intro y hy
      rcases List.mem_cons.mp hy with rfl | hy
      · exact Node.ofJS_isNode _ n hn
      · exact Node.listOfJS_isNode xs ns' hns y hy
    · simp at h
end

theorem JSValue.lookupLast_eq_none (k : String) :
    ∀ ps : List (String × JSValue), k ∉ ps.map Prod.fst → JSValue.lookupLast k ps = none
  | [], _ => rfl
  | (k', v) :: rest, h => by
    have hk : ¬ k' = k := fun e => h (by simp [e])
    have hrest : k ∉ rest.map Prod.fst := fun m => h (by simp at m ⊢; exact Or.inr m)
    simp [JSValue.lookupLast, JSValue.lookupLast_eq_none k rest hrest, hk]

/-- When no property name is written twice, every property definition is the
one that property access finds. -/
theorem JSValue.lookupLast_of_nodup :
    ∀ ps : List (String × JSValue), (ps.map Prod.fst).Nodup →
      ∀ p ∈ ps, JSValue.lookupLast p.1 ps = some p.2
  | [], _, p, hp => by cases hp
  | (k', v) :: rest, hnd, p, hp => by
    have hnd' : k' ∉ rest.map Prod.fst ∧ (rest.map Prod.fst).Nodup := by
      simpa [List.nodup_cons] using hnd
    rcases List.mem_cons.mp hp with rfl | hp
    · simp [JSValue.lookupLast, JSValue.lookupLast_eq_none _ rest hnd'.1]
    · simp [JSValue.lookupLast, JSValue.lookupLast_of_nodup rest hnd'.2 p hp]

/-- Values that are not nodes are rejected by the decoder: a category with
another `type`, a category without `label`, an array in place of a node. -/
theorem Node.ofJS_rejects :
    (Node.ofJS (.obj [("type", .str "link"), ("label", .str "L"), ("items", .arr [])])).isNone = true ∧
    (Node.ofJS (.obj [("type", .str "category"), ("items", .arr [])])).isNone = true ∧
    (Node.ofJS (.arr [.str "a"])).isNone = true ∧
    (Node.ofJS (.obj [("type", .str "category"), ("label", .str "L"),
        ("items", .arr [.arr []])])).isNone = true := by
  decide

/-- The nesting under `reference` is exactly Reference > Technical
Specifications > one of the twelve groups: depth 3. -/
theorem reference_depth :
    (sidebarsTree.lookup "reference").map Node.depthOfList = some 3 := by
  decide

/-! ## The properties of the exported tree -/

set_option maxRecDepth 100000

/-- C1: the depth-first flattening of `sidebars` into its leaf document
identifiers has 82 entries and no duplicate; hence every document identifier
occurs once in that order and lies under exactly one sidebar. -/
theorem leaves_pairwise_distinct :
    ∃ t, SidebarTree.ofJS sidebars = some t ∧
      t.leaves.length = 82 ∧ t.leaves.Nodup ∧
      ∀ d ∈ t.leaves, t.leaves.count d = 1 ∧
        (t.filter (fun sb => decide (d ∈ Node.leavesOfList sb.2))).length = 1 :=
  ⟨sidebarsTree, sidebars_decodes, by decide⟩

/-- C2: every Category node of `sidebars`, at any nesting depth (22 of them,
'Reference' and 'Technical Specifications' among them), has a non-empty
`label` and a non-empty `items`. -/
theorem category_label_items_nonempty :
    ∃ t, SidebarTree.ofJS sidebars = some t ∧
      t.categories.length = 22 ∧
      "Reference" ∈ t.categories.map Category.label ∧
      "Technical Specifications" ∈ t.categories.map Category.label ∧
      ∀ c ∈ t.categories, c.label ≠ "" ∧ c.items ≠ [] := by
  have h : ∀ c ∈ sidebarsTree.categories, c.label ≠ "" ∧ c.items.length ≠ 0 := by decide
  refine ⟨sidebarsTree, sidebars_decodes, by decide, by decide, by decide, ?_⟩
  intro c hc
  exact ⟨(h c hc).1, fun e => (h c hc).2 (by rw [e]; rfl)⟩

/-- C3: the keys of `sidebars` are the eight sidebar names, and the value of
each key is an array that decodes to a sequence of nodes and is not empty. -/
theorem sidebar_values_nonempty :
    sidebars.ownKeys = ["gettingStarted", "userGuides", "developers", "apiReference",
      "architecture", "operators", "tutorials", "reference"] ∧
    ∀ k ∈ sidebars.ownKeys, ∃ xs ns, sidebars.get k = some (.arr xs) ∧
      Node.listOfJS xs = some ns ∧ ns ≠ [] := by
  refine ⟨by decide, ?_⟩
  intro k hk
  have hkeys : sidebars.ownKeys = ["gettingStarted", "userGuides", "developers",
      "apiReference", "architecture", "operators", "tutorials", "reference"] := by decide
  rw [hkeys] at hk
  simp only [List.mem_cons, List.mem_singleton, List.not_mem_nil, or_false] at hk
  rcases hk with rfl | rfl | rfl | rfl | rfl | rfl | rfl | rfl <;>
    exact ⟨_, _, rfl, rfl, List.cons_ne_nil _ _⟩

/-- C4: every node of every sidebar of `sidebars`, at every depth, is a
document-identifier string or a Category object with `type` exactly
'category', a string `label` and an array `items` of nodes of the same shape:
each sidebar is an array whose elements satisfy `IsNode`, and the whole
literal decodes to a sidebar tree. -/
theorem nodes_well_shaped :
    (SidebarTree.ofJS sidebars).isSome = true ∧
    ∀ sb ∈ sidebars.props, ∃ xs, sb.2 = .arr xs ∧ ∀ x ∈ xs, IsNode x := by
  refine ⟨by decide, ?_⟩
  intro sb hsb
  simp only [sidebars, JSValue.props, List.mem_cons, List.mem_singleton, List.not_mem_nil,
    or_false] at hsb
  rcases hsb with rfl | rfl | rfl | rfl | rfl | rfl | rfl | rfl <;>
    exact ⟨_, rfl, Node.listOfJS_isNode _ _ (Option.eq_some_of_isSome (by decide))⟩

/-- C5: the keys written in the literal of `sidebars` are the eight names in
source order and pairwise distinct, so the object has exactly eight
properties and every written definition is the one its key gives back. -/
theorem sidebar_names_unique :
    sidebars.writtenKeys = ["gettingStarted", "userGuides", "developers", "apiReference",
      "architecture", "operators", "tutorials", "reference"] ∧
    sidebars.writtenKeys.Nodup ∧
    sidebars.ownKeys = sidebars.writtenKeys ∧
    sidebars.ownKeys.length = 8 ∧
    ∀ sb ∈ sidebars.props, sidebars.get sb.1 = some sb.2 :=
  ⟨by decide, by decide, by decide, by decide,
    JSValue.lookupLast_of_nodup sidebars.props (by decide)⟩

/-- C6: after the module's statements ran, `module.exports` is the `sidebars`
literal itself, so it decodes to the same tree: same sidebar names, same
categories and same leaves, in the same order. -/
theorem exports_is_sidebars :
    module_exports = some sidebars ∧
    module_exports.bind SidebarTree.ofJS = SidebarTree.ofJS sidebars ∧
    ∃ t, module_exports.bind SidebarTree.ofJS = some t ∧
      t.names = sidebars.writtenKeys ∧ t.leaves = sidebarsTree.leaves ∧
      t.categories.map Category.label = sidebarsTree.categories.map Category.label :=
  ⟨rfl, rfl, sidebarsTree, rfl, by decide, rfl, rfl⟩

/-- C7: the 22 category labels of `sidebars`, from 'Getting Started' to
'Other', are pairwise distinct, so two category nodes with the same label are
the same node and a label determines its list of items. -/
theorem category_labels_distinct :
    ∃ t, SidebarTree.ofJS sidebars = some t ∧
      (t.categories.map Category.label).length = 22 ∧
      (t.categories.map Category.label).head? = some "Getting Started" ∧
      (t.categories.map Category.label).getLast? = some "Other" ∧
      (t.categories.map Category.label).Nodup ∧
      ∀ c ∈ t.categories, ∀ d ∈ t.categories, c.label = d.label → c.items = d.items := by
  have hnd : (sidebarsTree.categories.map Category.label).Nodup := by decide
  refine ⟨sidebarsTree, sidebars_decodes, by decide, by decide, by decide, hnd, ?_⟩
  intro c hc d hd h
  rw [List.inj_on_of_nodup_map hnd hc hd h]

/-- C8: every sidebar of `sidebars` has one entry in `sidebarDirs`, every leaf
under the sidebar starts with that entry's directory, and the eight
directories are pairwise distinct, none a prefix of another. -/
theorem leaves_under_sidebar_dir :
    ∃ t, SidebarTree.ofJS sidebars = some t ∧
      t.names = sidebarDirs.map Prod.fst ∧
      (sidebarDirs.map Prod.fst).Nodup ∧
      (∀ sb ∈ t, ∃ e ∈ sidebarDirs, e.1 = sb.1 ∧
        ∀ d ∈ Node.leavesOfList sb.2, startsWith d e.2 = true) ∧
      (sidebarDirs.map Prod.snd).Nodup ∧
      ∀ p ∈ sidebarDirs.map Prod.snd, ∀ q ∈ sidebarDirs.map Prod.snd,
        p ≠ q → startsWith q p = false :=
  ⟨sidebarsTree, sidebars_decodes, by decide⟩

/-- C9: every sidebar of `sidebars` has exactly one top-level node, a
category; the category nesting depth is 1 in every sidebar but `reference`,
where it is at most 3. -/
theorem one_top_level_category :
    ∃ t, SidebarTree.ofJS sidebars = some t ∧
      ∀ sb ∈ t, sb.2.length = 1 ∧ sb.2.all Node.isCategory = true ∧
        (sb.1 ≠ "reference" → Node.depthOfList sb.2 = 1) ∧
        (sb.1 = "reference" → Node.depthOfList sb.2 ≤ 3) :=
  ⟨sidebarsTree, sidebars_decodes, by decide⟩

/-- C10: the items of every category of `sidebars` are all document
identifiers or all categories; the categories with a category among their
items are 'Reference' (2 items) and 'Technical Specifications' (12 items),
and every other category holds document identifiers only. -/
theorem categories_homogeneous :
    ∃ t, SidebarTree.ofJS sidebars = some t ∧
      (∀ c ∈ t.categories,
        c.items.all Node.isDoc = true ∨ c.items.all Node.isCategory = true) ∧
      (t.categories.filter (fun c => c.items.any Node.isCategory)).map
          (fun c => (c.label, c.items.length)) =
        [("Reference", 2), ("Technical Specifications", 12)] ∧
      ∀ c ∈ t.categories, c.label ≠ "Reference" → c.label ≠ "Technical Specifications" →
        c.items.all Node.isDoc = true :=
  ⟨sidebarsTree, sidebars_decodes, by decide⟩

end Sidebars
